import Mathlib

/-!
Verification development for the Rate Card Calculator repository.

The arithmetic core of the application (rate calculators, currency
conversion, rate refresh, catalog persistence) is shallowly embedded here.
JavaScript numbers are modelled as rationals; a JS number that is not a
finite value (NaN or an infinity) is modelled by `none` in `JsNum`.
`Math.round` is round-half-up toward positive infinity, i.e. `⌊x + 1/2⌋`.
String inputs that the source parses with `parseInt` / `parseFloat` are
kept as strings and parsed by the executable models below (decimal
notation without exponents, which covers every string this application
stores or receives from its option catalogs).
-/

namespace RateCard

/-- Numeric value of a decimal digit character. -/
def digitVal (c : Char) : ℕ := c.toNat - '0'.toNat

/-- Value of a list of decimal digit characters, most significant first. -/
def digitsToNat (cs : List Char) : ℕ := cs.foldl (fun acc c => 10 * acc + digitVal c) 0

/-- Core of JS `parseInt` on a sign-stripped character list: the longest
leading run of decimal digits, `none` (NaN) when there is none. -/
def parseIntCore (cs : List Char) : Option ℤ :=
  let ds := cs.takeWhile Char.isDigit
  if ds.isEmpty then none else some (digitsToNat ds : ℤ)

/-- Model of JS `parseInt(s)` (radix 10, no exponent forms): skip leading
whitespace, optional sign, then the longest run of digits; `none` models
the NaN result. -/
def parseIntJS (s : String) : Option ℤ :=
  match s.data.dropWhile Char.isWhitespace with
  | '-' :: rest => (parseIntCore rest).map (fun n => -n)
  | '+' :: rest => parseIntCore rest
  | cs => parseIntCore cs

/-- Core of JS `parseFloat` on a sign-stripped character list: integer
digits, optionally a point and fraction digits; `none` (NaN) when no digit
is present at all. -/
def parseFloatCore (cs : List Char) : Option ℚ :=
  let intDs := cs.takeWhile Char.isDigit
  let rest := cs.dropWhile Char.isDigit
  match rest with
  | '.' :: rest2 =>
    let fracDs := rest2.takeWhile Char.isDigit
    if intDs.isEmpty && fracDs.isEmpty then none
    else some ((digitsToNat intDs : ℚ) + (digitsToNat fracDs : ℚ) / (10 ^ fracDs.length))
  | _ => if intDs.isEmpty then none else some (digitsToNat intDs : ℚ)

/-- Model of JS `parseFloat(s)` for plain decimal notation (exponent forms
do not occur in this application's data): skip leading whitespace, optional
sign, then the longest leading decimal literal; `none` models NaN. -/
def parseFloatJS (s : String) : Option ℚ :=
  match s.data.dropWhile Char.isWhitespace with
  | '-' :: rest => (parseFloatCore rest).map (fun q => -q)
  | '+' :: rest => parseFloatCore rest
  | cs => parseFloatCore cs

/-- A JavaScript number: `some q` is the finite value `q`; `none` models a
non-finite value (NaN or an infinity), which every arithmetic operation
below absorbs. -/
abbrev JsNum := Option ℚ

/-- JS multiplication on `JsNum` (a non-finite operand propagates). -/
def jsMul (a b : JsNum) : JsNum :=
  match a, b with
  | some x, some y => some (x * y)
  | _, _ => none

/-- JS division on `JsNum`: division by zero is non-finite in JS
(an infinity, or NaN for `0/0`), modelled by `none`. -/
def jsDiv (a b : JsNum) : JsNum :=
  match a, b with
  | some x, some y => if y = 0 then none else some (x / y)
  | _, _ => none

/-- JS `Math.round`: round half up toward positive infinity; a non-finite
argument stays non-finite. -/
def jsRound (a : JsNum) : JsNum :=
  a.map (fun q => ((⌊q + 1/2⌋ : ℤ) : ℚ))

/-- Region catalog record; `multiplier` is stored as a decimal string and
parsed with `parseFloat` at use sites, as in the source. -/
structure Region where
  id : String
  name : String
  multiplier : String
  deriving DecidableEq, Repr

/-- Role catalog record; `baseRate` is stored as a number. -/
structure Role where
  id : String
  name : String
  category : String
  baseRate : ℚ
  deriving DecidableEq, Repr

/-- Seniority-level catalog record; `multiplier` is a decimal string. -/
structure SeniorityLevel where
  id : String
  name : String
  multiplier : String
  deriving DecidableEq, Repr

/-- Client-side currency record; `rate` is a decimal string parsed with
`parseFloat` at use sites. -/
structure Currency where
  id : String
  name : String
  symbol : String
  rate : String
  deriving DecidableEq, Repr

/-- Result shape of `calculateCustomRate`. `baseRate` is taken directly
from the catalog (a plain number); the multipliers and the final rate pass
through `parseFloat` / `Math.round` and may be non-finite in JS, hence
`JsNum`. -/
structure CustomRateResult where
  baseRate : ℚ
  regionalMultiplier : JsNum
  seniorityMultiplier : JsNum
  finalRate : JsNum
  deriving DecidableEq, Repr

/-- The all-zero fallback result of `calculateCustomRate`. -/
def customZero : CustomRateResult :=
  { baseRate := 0, regionalMultiplier := some 0, seniorityMultiplier := some 0, finalRate := some 0 }

/-- Embedding of `calculateCustomRate(regionId, roleId, seniorityId)` from
the calculator hook: resolve the three ids by scanning the catalog lists;
on any miss return the all-zero record; otherwise parse the two multiplier
strings and round the triple product. -/
def calculateCustomRate (regions : List Region) (customRoles : List Role)
    (seniorityLevels : List SeniorityLevel)
    (regionId roleId seniorityId : String) : CustomRateResult :=
  match regions.find? (fun r => r.id = regionId),
        customRoles.find? (fun r => r.id = roleId),
        seniorityLevels.find? (fun s => s.id = seniorityId) with
  | some region, some role, some seniority =>
    let baseRate := role.baseRate
    let regionalMultiplier := parseFloatJS region.multiplier
    let seniorityMultiplier := parseFloatJS seniority.multiplier
    let finalRate := jsRound (jsMul (jsMul (some baseRate) regionalMultiplier) seniorityMultiplier)
    { baseRate := baseRate, regionalMultiplier := regionalMultiplier,
      seniorityMultiplier := seniorityMultiplier, finalRate := finalRate }
  | _, _, _ => customZero

/-- Result shape of `calculateSWATRate`. `durationDiscount` is always a
plain percentage number in the source; the rounded stages may be
non-finite in JS, hence `JsNum`. -/
structure SWATRateResult where
  baseRate : ℚ
  baseWithSeniority : JsNum
  afterWorkload : JsNum
  durationDiscount : ℚ
  finalRate : JsNum
  deriving DecidableEq, Repr

/-- The all-zero fallback result of `calculateSWATRate`. -/
def swatZero : SWATRateResult :=
  { baseRate := 0, baseWithSeniority := some 0, afterWorkload := some 0,
    durationDiscount := 0, finalRate := some 0 }

/-- Duration-discount percentage chosen by the source's `if` chain on the
`parseInt`-ed month count; every comparison against NaN (`none`) is false,
so NaN falls through to `0` exactly like the source. -/
def durationDiscountOf (duration : Option ℤ) : ℚ :=
  match duration with
  | some d => if d = 2 then 5 else if d = 3 then 10 else if 4 ≤ d then 15 else 0
  | none => 0

/-- Embedding of `calculateSWATRate(roleId, workloadPercent,
durationMonths, seniorityId)`: guard on unresolved role/seniority and on
empty workload/duration strings (JS falsiness of a string is emptiness),
then the five-stage pipeline with `Math.round` at each stage. -/
def calculateSWATRate (swatRoles : List Role) (seniorityLevels : List SeniorityLevel)
    (roleId workloadPercent durationMonths seniorityId : String) : SWATRateResult :=
  match swatRoles.find? (fun r => r.id = roleId),
        seniorityLevels.find? (fun s => s.id = seniorityId) with
  | some role, some seniority =>
    if workloadPercent = "" ∨ durationMonths = "" then swatZero
    else
      let baseRate := role.baseRate
      let seniorityMultiplier := parseFloatJS seniority.multiplier
      let workload : JsNum := (parseIntJS workloadPercent).map (fun n => (n : ℚ) / 100)
      let duration := parseIntJS durationMonths
      let baseWithSeniority := jsRound (jsMul (some baseRate) seniorityMultiplier)
      let afterWorkload := jsRound (jsMul baseWithSeniority workload)
      let durationDiscount := durationDiscountOf duration
      let afterDurationDiscount := jsRound (jsMul afterWorkload (some (1 - durationDiscount / 100)))
      let finalRate := jsRound (jsMul afterDurationDiscount (some (8/10)))
      { baseRate := baseRate, baseWithSeniority := baseWithSeniority,
        afterWorkload := afterWorkload, durationDiscount := durationDiscount,
        finalRate := finalRate }
  | _, _ => swatZero

/-- Snapshot of the state `convertFromAED` / `convertToAED` close over in
the currency hook: the selected display currency, the fetched currency
list, and the current base-currency marker. -/
structure CurrencyState where
  selectedCurrency : String
  currencies : List Currency
  currentBaseCurrency : String
  deriving DecidableEq, Repr

/-- Embedding of `convertFromAED(aedAmount)` from the currency hook:
identity for AED or an unresolved display currency; direct
`round(amount × rate)` when the base marker is AED; otherwise the
two-step path that divides by the base currency's own stored rate,
falling back to the input when the base record is unresolved. -/
def convertFromAED (st : CurrencyState) (aedAmount : JsNum) : JsNum :=
  if st.selectedCurrency = "AED" then aedAmount
  else
    match st.currencies.find? (fun c => c.id = st.selectedCurrency) with
    | none => aedAmount
    | some currency =>
      if st.currentBaseCurrency = "AED" then
        jsRound (jsMul aedAmount (parseFloatJS currency.rate))
      else
        match st.currencies.find? (fun c => c.id = st.currentBaseCurrency) with
        | none => aedAmount
        | some baseCurrencyData =>
          let aedToBaseRate := jsDiv (some 1) (parseFloatJS baseCurrencyData.rate)
          let baseAmount := jsMul aedAmount aedToBaseRate
          jsRound (jsMul baseAmount (parseFloatJS currency.rate))

/-- Embedding of `convertToAED(amount, fromCurrency)` from the currency
hook: identity for AED or an unresolved currency, otherwise
`round(amount / rate)`. -/
def convertToAED (st : CurrencyState) (amount : JsNum) (fromCurrency : String) : JsNum :=
  if fromCurrency = "AED" then amount
  else
    match st.currencies.find? (fun c => c.id = fromCurrency) with
    | none => amount
    | some currency => jsRound (jsDiv amount (parseFloatJS currency.rate))

/-- Outcome of the external rate fetch as distinguished by
`updateExchangeRates`'s control flow. `fetchFailed` is a thrown network
error, `badStatus` a non-ok HTTP response, `malformedBody` a body that
does not parse as JSON, `apiError` a parsed body whose `result` field is
not the success marker, `noRatesTable` a success body with no
`conversion_rates` object, and `ok` carries the rate table, where `none`
models an absent entry and `some 0` a zero entry (both JS-falsy). -/
inductive FetchOutcome where
  | fetchFailed
  | badStatus
  | malformedBody
  | apiError
  | noRatesTable
  | ok (rates : String → Option ℚ)

/-- JS `x || d` for a possibly-absent number `x`: the default replaces an
absent entry and a zero entry (both falsy). -/
def jsOrDefault (x : Option ℚ) (d : ℚ) : ℚ :=
  match x with
  | some v => if v = 0 then d else v
  | none => d

/-- The fixed fallback rate table returned by `updateExchangeRates` on any
failure, in the source's key order. -/
def fallbackRates : List (String × ℚ) :=
  [("AED", 1), ("USD", 272/1000), ("EUR", 25/100), ("GBP", 215/1000),
   ("INR", 225/10), ("PKR", 755/10), ("CAD", 37/100), ("AUD", 41/100),
   ("JPY", 402/10), ("CHF", 24/100), ("CNY", 195/100)]

/-- Embedding of `updateExchangeRates(baseCurrency)`: every failure path
lands in the `catch` and returns the fixed fallback table; the success
path returns the eleven supported currencies with each individually
missing (or zero) entry replaced by its fallback constant. The base
currency only selects which table the external source returns, so it does
not appear here. -/
def updateExchangeRates (outcome : FetchOutcome) : List (String × ℚ) :=
  match outcome with
  | .ok rates =>
    [("AED", jsOrDefault (rates "AED") 1), ("USD", jsOrDefault (rates "USD") (272/1000)),
     ("EUR", jsOrDefault (rates "EUR") (25/100)), ("GBP", jsOrDefault (rates "GBP") (215/1000)),
     ("INR", jsOrDefault (rates "INR") (225/10)), ("PKR", jsOrDefault (rates "PKR") (755/10)),
     ("CAD", jsOrDefault (rates "CAD") (37/100)), ("AUD", jsOrDefault (rates "AUD") (41/100)),
     ("JPY", jsOrDefault (rates "JPY") (402/10)), ("CHF", jsOrDefault (rates "CHF") (24/100)),
     ("CNY", jsOrDefault (rates "CNY") (195/100))]
  | _ => fallbackRates

/-- A stored rate value in the server's catalog: the seeded records hold
decimal strings, a refresh overwrites them with numbers (JS is untyped, so
both shapes occur in the store). -/
inductive RateVal where
  | str (s : String)
  | num (q : ℚ)
  deriving DecidableEq, Repr

/-- Server-side currency record as persisted in the key-value store. The
`baseCurrency` field is absent on seeded records and added by the first
refresh, hence `Option`. -/
structure StoredCurrency where
  id : String
  name : String
  symbol : String
  rate : RateVal
  baseCurrency : Option String
  deriving DecidableEq, Repr

/-- Lookup `rates[id]` in the fetched mapping (an object keyed by
currency id). -/
def ratesLookup (rates : List (String × ℚ)) (id : String) : Option ℚ :=
  (rates.find? (fun p => p.1 = id)).map (fun p => p.2)

/-- The `currencies.map` step of `updateCurrencyRates`: each record keeps its
id, name and symbol, takes `rates[id] || previous rate` (JS `||`: an
absent or zero mapped rate keeps the previous value), and gets the new
base-currency tag. -/
def updatedCurrencyList (currencies : List StoredCurrency)
    (rates : List (String × ℚ)) (baseCurrency : String) : List StoredCurrency :=
  currencies.map (fun c =>
    { c with
      rate := match ratesLookup rates c.id with
              | some v => if v = 0 then c.rate else .num v
              | none => c.rate
      baseCurrency := some baseCurrency })

/-- Server-side key-value store state relevant to a rate refresh: the
`currencies` entry and the `current_base_currency` marker. -/
structure KVStore where
  currencies : List StoredCurrency
  baseCurrencyMarker : String
  deriving DecidableEq, Repr

/-- Success or failure of each of the two independent upserts performed by
`updateCurrencyRates` (a failed upsert writes nothing and reports an
error; both upserts are always attempted). -/
structure UpsertOutcome where
  currenciesWriteOk : Bool
  markerWriteOk : Bool
  deriving DecidableEq, Repr

/-- Embedding of `SupabaseStorage.updateCurrencyRates(rates, baseCurrency)`:
map the stored currency list, upsert the mapped list, upsert the marker,
and throw (second component `false`) when either upsert reported an
error. The store reflects exactly the writes that individually
succeeded. -/
def updateCurrencyRates (st : KVStore) (rates : List (String × ℚ))
    (baseCurrency : String) (oc : UpsertOutcome) : KVStore × Bool :=
  let updated := updatedCurrencyList st.currencies rates baseCurrency
  let st1 := if oc.currenciesWriteOk then { st with currencies := updated } else st
  let st2 := if oc.markerWriteOk then { st1 with baseCurrencyMarker := baseCurrency } else st1
  (st2, oc.currenciesWriteOk && oc.markerWriteOk)

/-- The seeded SWAT role catalog from `initializeData`. -/
def seedSwatRoles : List Role :=
  [{ id := "swat-frontend", name := "Frontend Specialist", category := "swat", baseRate := 200 },
   { id := "swat-backend", name := "Backend Specialist", category := "swat", baseRate := 220 },
   { id := "swat-devops", name := "DevOps Specialist", category := "swat", baseRate := 250 },
   { id := "swat-architecture", name := "Solution Architect", category := "swat", baseRate := 300 },
   { id := "swat-security", name := "Security Expert", category := "swat", baseRate := 280 },
   { id := "swat-performance", name := "Performance Engineer", category := "swat", baseRate := 240 }]

/-- The seeded seniority-level catalog from `initializeData`. -/
def seedSeniorityLevels : List SeniorityLevel :=
  [{ id := "junior", name := "Junior", multiplier := "0.70" },
   { id := "mid", name := "Mid-Level", multiplier := "1.00" },
   { id := "senior", name := "Senior", multiplier := "1.40" },
   { id := "lead", name := "Lead", multiplier := "1.80" },
   { id := "principal", name := "Principal", multiplier := "2.20" }]

/-- The seeded region catalog from `initializeData`. -/
def seedRegions : List Region :=
  [{ id := "euro-asia", name := "Euro Asia", multiplier := "1.00" },
   { id := "middle-east", name := "Middle East", multiplier := "1.15" },
   { id := "europe", name := "Europe", multiplier := "1.30" },
   { id := "north-america", name := "North America", multiplier := "1.40" }]

/-- The seeded custom-role catalog from `initializeData` (first entries). -/
def seedCustomRoles : List Role :=
  [{ id := "frontend-developer", name := "Frontend Developer", category := "custom", baseRate := 120 },
   { id := "backend-developer", name := "Backend Developer", category := "custom", baseRate := 130 }]

/-- The seeded currency catalog from `initializeData` (client shape). -/
def seedCurrencies : List Currency :=
  [{ id := "AED", name := "UAE Dirham", symbol := "د.إ", rate := "1.0" },
   { id := "USD", name := "US Dollar", symbol := "$", rate := "0.27" },
   { id := "EUR", name := "Euro", symbol := "€", rate := "0.25" },
   { id := "GBP", name := "British Pound", symbol := "£", rate := "0.21" },
   { id := "INR", name := "Indian Rupee", symbol := "₹", rate := "22.5" }]

/-- Currency catalog as left by a refresh with base currency USD: every
stored rate means units of that currency per 1 USD, so USD's own stored
rate is 1. -/
def usdBaseCurrencies : List Currency :=
  [{ id := "AED", name := "UAE Dirham", symbol := "د.إ", rate := "3.67" },
   { id := "USD", name := "US Dollar", symbol := "$", rate := "1" },
   { id := "EUR", name := "Euro", symbol := "€", rate := "0.92" }]

/-- Modelled from the spec: direct AED→display conversion through the
manually derived cross rate, for comparison with the code's two-step
path. Under a non-AED base B every stored rate means "units of X per 1
B", so the AED→display cross rate is `rate[display] / rate[AED]` and the
direct result is `round(x × crossRate)`. The repository has no such
function; this is the reference side of the spec's equivalence
property. -/
def directCrossFromAED (st : CurrencyState) (x : ℚ) : Option ℚ :=
  match st.currencies.find? (fun c => c.id = st.selectedCurrency),
        st.currencies.find? (fun c => c.id = "AED") with
  | some disp, some aedRec =>
    match parseFloatJS disp.rate, parseFloatJS aedRec.rate with
    | some rd, some ra => if ra = 0 then none else some ((⌊x * (rd / ra) + 1/2⌋ : ℤ) : ℚ)
    | _, _ => none
  | _, _ => none

/-- The seeded currency catalog in its server-side stored shape (decimal
strings, no base-currency tag yet). -/
def seedStoredCurrencies : List StoredCurrency :=
  [{ id := "AED", name := "UAE Dirham", symbol := "د.إ", rate := .str "1.0", baseCurrency := none },
   { id := "USD", name := "US Dollar", symbol := "$", rate := .str "0.27", baseCurrency := none },
   { id := "EUR", name := "Euro", symbol := "€", rate := .str "0.25", baseCurrency := none },
   { id := "GBP", name := "British Pound", symbol := "£", rate := .str "0.21", baseCurrency := none },
   { id := "INR", name := "Indian Rupee", symbol := "₹", rate := .str "22.5", baseCurrency := none }]

/-- Free-form configuration object attached to a quote: a snapshot of the
human-readable selections, modelled as key-value pairs. -/
abbrev QuoteConfig := List (String × String)

/-- Raw body of a quote-creation request as seen by the validation
schema; `none` models a field that is absent or not of the schema's
type. -/
structure QuoteReqBody where
  type : Option String
  configuration : Option QuoteConfig
  finalRate : Option ℚ
  currency : Option String
  deriving DecidableEq, Repr

/-- A validated quote-creation payload. -/
structure InsertQuote where
  type : String
  configuration : QuoteConfig
  finalRate : ℚ
  currency : String
  deriving DecidableEq, Repr

/-- Embedding of `insertQuoteSchema` from the shared schema module:
`createInsertSchema(quotes).omit(id, createdAt)` over the `quotes` table,
whose remaining columns are all `notNull` — a string `type` (any string;
the `custom`/`swat` restriction appears only in a comment, not in the
column type), a JSON `configuration`, a numeric `finalRate` and a string
`currency`. Parsing fails exactly when a field is absent or not of its
column's type (`none` in the request body). -/
def insertQuoteParse (b : QuoteReqBody) : Option InsertQuote :=
  match b.type, b.configuration, b.finalRate, b.currency with
  | some t, some cfg, some fr, some cur => some ⟨t, cfg, fr, cur⟩
  | _, _, _, _ => none

/-- Persisted quote record, as assembled by `createQuote`. -/
structure Quote where
  id : String
  type : String
  configuration : QuoteConfig
  finalRate : ℚ
  currency : String
  createdAt : String
  deriving DecidableEq, Repr

/-- Response of the quote-creation route: a created record with status
201, or the 400 `Invalid quote data` rejection. -/
inductive QuoteRouteResult where
  | created (q : Quote)
  | invalid
  deriving DecidableEq, Repr

/-- Embedding of the quote-creation route: parse the body with the
schema; on failure respond 400 with no record created; on success
`createQuote` stamps a fresh id and a creation timestamp and the route
returns the persisted record (a store write error throws into the same
handler and also yields the 400 response). -/
def quotesRoute (b : QuoteReqBody) (newId now : String) (writeOk : Bool) : QuoteRouteResult :=
  match insertQuoteParse b with
  | none => .invalid
  | some v =>
    if writeOk then
      QuoteRouteResult.created
        { id := newId, type := v.type, configuration := v.configuration,
          finalRate := v.finalRate, currency := v.currency, createdAt := now }
    else .invalid

/-- JS falsiness of an optional string field: absent or the empty
string. -/
def jsFalsyStr (s : Option String) : Bool :=
  match s with
  | none => true
  | some v => v = ""

/-- Response of the send-quote route: the 400 missing-fields rejection,
success, or the 500 email-failure response. -/
inductive SendQuoteResult where
  | missingFields
  | sent
  | emailFailed
  deriving DecidableEq, Repr

/-- Embedding of the send-quote route: reject with 400 when
`recipientEmail`, `senderName` or `quoteData` is JS-falsy (absent or, for
the strings, empty), otherwise send the email and report its outcome. -/
def sendQuoteRoute (recipientEmail senderName : Option String)
    (quoteData : Option InsertQuote) (emailOk : Bool) : SendQuoteResult :=
  if jsFalsyStr recipientEmail || jsFalsyStr senderName || quoteData.isNone then .missingFields
  else if emailOk then .sent else .emailFailed

/-- A string accepted by `parseIntJS` is in particular non-empty (the JS
truthiness guard of `calculateSWATRate` only rejects the empty string). -/
theorem parseIntJS_ne_empty {s : String} {w : ℤ} (h : parseIntJS s = some w) : s ≠ "" := by
  intro he
  subst he
  simp [parseIntJS, parseIntCore] at h

/-- C1: for every SWAT input whose role and seniority resolve and whose
workload and duration strings carry integer values, `calculateSWATRate`
returns exactly the five-stage pipeline with round-half-up
(`⌊· + 1/2⌋`, JS `Math.round`) applied at every stage before the next:
`baseWithSeniority = round(baseRate × seniorityMultiplier)`,
`afterWorkload = round(baseWithSeniority × workloadPercent/100)`, the
duration discount from the table `2 → 5`, `3 → 10`, `≥4 → 15` and `0` for
everything else (so `1`, `0` and negatives give `0`),
`afterDurationDiscount = round(afterWorkload × (1 − discount/100))`, and
`finalRate = round(afterDurationDiscount × 0.8)` unconditionally. -/
theorem calculateSWATRate_pipeline
    (swatRoles : List Role) (seniorityLevels : List SeniorityLevel)
    (roleId workloadPercent durationMonths seniorityId : String)
    (role : Role) (sen : SeniorityLevel) (sm : ℚ) (w d : ℤ)
    (hrole : swatRoles.find? (fun r => r.id = roleId) = some role)
    (hsen : seniorityLevels.find? (fun s => s.id = seniorityId) = some sen)
    (hsm : parseFloatJS sen.multiplier = some sm)
    (hw : parseIntJS workloadPercent = some w)
    (hd : parseIntJS durationMonths = some d) :
    calculateSWATRate swatRoles seniorityLevels roleId workloadPercent durationMonths seniorityId =
      { baseRate := role.baseRate,
        baseWithSeniority := some ((⌊role.baseRate * sm + 1/2⌋ : ℤ) : ℚ),
        afterWorkload :=
          some ((⌊((⌊role.baseRate * sm + 1/2⌋ : ℤ) : ℚ) * ((w : ℚ) / 100) + 1/2⌋ : ℤ) : ℚ),
        durationDiscount := (if d = 2 then 5 else if d = 3 then 10 else if 4 ≤ d then 15 else 0),
        finalRate :=
          some ((⌊((⌊((⌊((⌊role.baseRate * sm + 1/2⌋ : ℤ) : ℚ) * ((w : ℚ) / 100) + 1/2⌋ : ℤ) : ℚ) *
            (1 - (if d = 2 then 5 else if d = 3 then 10 else if 4 ≤ d then 15 else 0) / 100) +
            1/2⌋ : ℤ) : ℚ) * (8/10) + 1/2⌋ : ℤ) : ℚ) } := by
  have hwne : workloadPercent ≠ "" := parseIntJS_ne_empty hw
  have hdne : durationMonths ≠ "" := parseIntJS_ne_empty hd
  unfold calculateSWATRate
  rw [hrole, hsen]
  simp only [hwne, hdne, hsm, hw, hd, or_self, if_false, Option.map_some]
  simp [jsMul, jsRound, durationDiscountOf]

/-- C1 witness: the seeded SWAT catalog at role `swat-frontend` (base rate
200), seniority `mid` (multiplier 1.00), workload `50`, duration `3`
evaluates through the pipeline to 200 / 100 / 10% / 72, the spec's own
concrete scenario. -/
theorem calculateSWATRate_pipeline_witness :
    calculateSWATRate seedSwatRoles seedSeniorityLevels "swat-frontend" "50" "3" "mid" =
      { baseRate := 200, baseWithSeniority := some 200, afterWorkload := some 100,
        durationDiscount := 10, finalRate := some 72 } := by
  have h := calculateSWATRate_pipeline seedSwatRoles seedSeniorityLevels
    "swat-frontend" "50" "3" "mid"
    { id := "swat-frontend", name := "Frontend Specialist", category := "swat", baseRate := 200 }
    { id := "mid", name := "Mid-Level", multiplier := "1.00" }
    1 50 3
    (by simp +decide [seedSwatRoles])
    (by simp +decide [seedSeniorityLevels])
    (by simp +decide [parseFloatJS, parseFloatCore, digitsToNat, digitVal])
    (by decide) (by decide)
  rw [h]
  norm_num [Int.floor_eq_iff]

/-- C2: when all three identifiers resolve in the catalog and the stored
multiplier strings parse, `calculateCustomRate` returns the resolved base
rate and multipliers and `finalRate = round(baseRate × regionalMultiplier
× seniorityMultiplier)` with round-half-up (`⌊· + 1/2⌋`); when any of the
three identifiers does not resolve (the empty/unselected string resolves
in no catalog), it returns the all-zero result. -/
theorem calculateCustomRate_spec
    (regions : List Region) (customRoles : List Role) (seniorityLevels : List SeniorityLevel)
    (regionId roleId seniorityId : String) :
    (∀ (region : Region) (role : Role) (sen : SeniorityLevel) (rm sm : ℚ),
       regions.find? (fun r => r.id = regionId) = some region →
       customRoles.find? (fun r => r.id = roleId) = some role →
       seniorityLevels.find? (fun s => s.id = seniorityId) = some sen →
       parseFloatJS region.multiplier = some rm →
       parseFloatJS sen.multiplier = some sm →
       calculateCustomRate regions customRoles seniorityLevels regionId roleId seniorityId =
         { baseRate := role.baseRate, regionalMultiplier := some rm,
           seniorityMultiplier := some sm,
           finalRate := some ((⌊role.baseRate * rm * sm + 1/2⌋ : ℤ) : ℚ) })
    ∧ ((regions.find? (fun r => r.id = regionId) = none ∨
        customRoles.find? (fun r => r.id = roleId) = none ∨
        seniorityLevels.find? (fun s => s.id = seniorityId) = none) →
       calculateCustomRate regions customRoles seniorityLevels regionId roleId seniorityId =
         { baseRate := 0, regionalMultiplier := some 0, seniorityMultiplier := some 0,
           finalRate := some 0 }) := by
  constructor
  · intro region role sen rm sm hreg hrole hsen hrm hsm
    unfold calculateCustomRate
    rw [hreg, hrole, hsen]
    simp only [hrm, hsm, jsMul, jsRound, Option.map_some]
    simp [mul_assoc]
  · intro h
    rcases hr : regions.find? (fun r => r.id = regionId) with _ | region <;>
      rcases ho : customRoles.find? (fun r => r.id = roleId) with _ | role <;>
      rcases hs : seniorityLevels.find? (fun s => s.id = seniorityId) with _ | sen <;>
      simp [calculateCustomRate, hr, ho, hs, customZero] <;>
      simp [hr, ho, hs] at h

/-- C2 witness: the spec's concrete scenario — region `middle-east`
(multiplier 1.15), role `frontend-developer` (base rate 120), seniority
`senior` (multiplier 1.40) — gives `round(120 × 1.15 × 1.40) = 193`. -/
theorem calculateCustomRate_spec_witness :
    calculateCustomRate seedRegions seedCustomRoles seedSeniorityLevels
      "middle-east" "frontend-developer" "senior" =
      { baseRate := 120, regionalMultiplier := some (115/100),
        seniorityMultiplier := some (140/100), finalRate := some 193 } := by
  have h := (calculateCustomRate_spec seedRegions seedCustomRoles seedSeniorityLevels
      "middle-east" "frontend-developer" "senior").1
    { id := "middle-east", name := "Middle East", multiplier := "1.15" }
    { id := "frontend-developer", name := "Frontend Developer", category := "custom", baseRate := 120 }
    { id := "senior", name := "Senior", multiplier := "1.40" }
    (115/100) (140/100)
    (by simp +decide [seedRegions])
    (by simp +decide [seedCustomRoles])
    (by simp +decide [seedSeniorityLevels])
    (by simp +decide [parseFloatJS, parseFloatCore, digitsToNat, digitVal]; norm_num)
    (by simp +decide [parseFloatJS, parseFloatCore, digitsToNat, digitVal]; norm_num)
  rw [h]
  norm_num [Int.floor_eq_iff]

/-- C7: no core operation throws on a resolution miss — the calculators
return their all-zero records for any unresolved catalog identifier (SWAT
also for an empty workload or duration string), and both conversion
functions return the input amount unchanged when the referenced currency
record is absent or the currency is AED. -/
theorem resolutionMiss_fallbacks :
    (∀ (regions : List Region) (customRoles : List Role) (seniorityLevels : List SeniorityLevel)
       (regionId roleId seniorityId : String),
       (regions.find? (fun r => r.id = regionId) = none ∨
        customRoles.find? (fun r => r.id = roleId) = none ∨
        seniorityLevels.find? (fun s => s.id = seniorityId) = none) →
       calculateCustomRate regions customRoles seniorityLevels regionId roleId seniorityId =
         { baseRate := 0, regionalMultiplier := some 0, seniorityMultiplier := some 0,
           finalRate := some 0 })
    ∧ (∀ (swatRoles : List Role) (seniorityLevels : List SeniorityLevel)
         (roleId workloadPercent durationMonths seniorityId : String),
       (swatRoles.find? (fun r => r.id = roleId) = none ∨
        seniorityLevels.find? (fun s => s.id = seniorityId) = none ∨
        workloadPercent = "" ∨ durationMonths = "") →
       calculateSWATRate swatRoles seniorityLevels roleId workloadPercent durationMonths
           seniorityId =
         { baseRate := 0, baseWithSeniority := some 0, afterWorkload := some 0,
           durationDiscount := 0, finalRate := some 0 })
    ∧ (∀ (st : CurrencyState) (a : JsNum),
       (st.selectedCurrency = "AED" ∨
        st.currencies.find? (fun c => c.id = st.selectedCurrency) = none) →
       convertFromAED st a = a)
    ∧ (∀ (st : CurrencyState) (a : JsNum) (fromCurrency : String),
       (fromCurrency = "AED" ∨
        st.currencies.find? (fun c => c.id = fromCurrency) = none) →
       convertToAED st a fromCurrency = a) := by
  refine ⟨?_, ?_, ?_, ?_⟩
  · intro regions customRoles seniorityLevels regionId roleId seniorityId h
    rcases hr : regions.find? (fun r => r.id = regionId) with _ | region <;>
      rcases ho : customRoles.find? (fun r => r.id = roleId) with _ | role <;>
      rcases hs : seniorityLevels.find? (fun s => s.id = seniorityId) with _ | sen <;>
      simp [calculateCustomRate, hr, ho, hs, customZero] <;>
      simp [hr, ho, hs] at h
  · intro swatRoles seniorityLevels roleId workloadPercent durationMonths seniorityId h
    rcases hr : swatRoles.find? (fun r => r.id = roleId) with _ | role <;>
      rcases hs : seniorityLevels.find? (fun s => s.id = seniorityId) with _ | sen <;>
      simp [calculateSWATRate, hr, hs, swatZero] <;>
      rcases h with h | h | h | h <;> simp_all [swatZero]
  · intro st a h
    rcases h with h | h
    · simp [convertFromAED, h]
    · simp [convertFromAED, h]
  · intro st a fromCurrency h
    rcases h with h | h
    · simp [convertToAED, h]
    · simp [convertToAED, h]

/-- C7 witness: with the seeded catalogs — an unselected region id, an
empty SWAT workload string, an unknown display currency `XYZ`, and an AED
round-trip input — every fallback fires. -/
theorem resolutionMiss_fallbacks_witness :
    calculateCustomRate seedRegions seedCustomRoles seedSeniorityLevels
        "" "frontend-developer" "senior" =
      { baseRate := 0, regionalMultiplier := some 0, seniorityMultiplier := some 0,
        finalRate := some 0 } ∧
    calculateSWATRate seedSwatRoles seedSeniorityLevels "swat-frontend" "" "3" "mid" =
      { baseRate := 0, baseWithSeniority := some 0, afterWorkload := some 0,
        durationDiscount := 0, finalRate := some 0 } ∧
    convertFromAED { selectedCurrency := "XYZ", currencies := seedCurrencies,
                     currentBaseCurrency := "AED" } (some 100) = some 100 ∧
    convertToAED { selectedCurrency := "USD", currencies := seedCurrencies,
                   currentBaseCurrency := "AED" } (some 100) "AED" = some 100 :=
  ⟨resolutionMiss_fallbacks.1 seedRegions seedCustomRoles seedSeniorityLevels
      "" "frontend-developer" "senior" (Or.inl (by decide)),
   resolutionMiss_fallbacks.2.1 seedSwatRoles seedSeniorityLevels
      "swat-frontend" "" "3" "mid" (Or.inr (Or.inr (Or.inl rfl))),
   resolutionMiss_fallbacks.2.2.1
      { selectedCurrency := "XYZ", currencies := seedCurrencies, currentBaseCurrency := "AED" }
      (some 100) (Or.inr (by decide)),
   resolutionMiss_fallbacks.2.2.2
      { selectedCurrency := "USD", currencies := seedCurrencies, currentBaseCurrency := "AED" }
      (some 100) "AED" (Or.inl rfl)⟩

/-- Evaluation of `convertFromAED` on its direct (base = AED) path. -/
theorem convertFromAED_eval_direct
    (st : CurrencyState) (x : ℚ) (c : Currency) (r : ℚ)
    (hsel : st.selectedCurrency ≠ "AED")
    (hfind : st.currencies.find? (fun cc => cc.id = st.selectedCurrency) = some c)
    (hr : parseFloatJS c.rate = some r)
    (hbase : st.currentBaseCurrency = "AED") :
    convertFromAED st (some x) = some ((⌊x * r + 1/2⌋ : ℤ) : ℚ) := by
  simp [convertFromAED, hsel, hfind, hbase, hr, jsMul, jsRound]

/-- Evaluation of `convertFromAED` on its two-step (non-AED base) path. -/
theorem convertFromAED_eval_twostep
    (st : CurrencyState) (x : ℚ) (c : Currency) (r : ℚ) (b : Currency) (rb : ℚ)
    (hsel : st.selectedCurrency ≠ "AED")
    (hfind : st.currencies.find? (fun cc => cc.id = st.selectedCurrency) = some c)
    (hr : parseFloatJS c.rate = some r)
    (hbase : st.currentBaseCurrency ≠ "AED")
    (hbfind : st.currencies.find? (fun cc => cc.id = st.currentBaseCurrency) = some b)
    (hbr : parseFloatJS b.rate = some rb) (hrb0 : rb ≠ 0) :
    convertFromAED st (some x) = some ((⌊x * (1 / rb) * r + 1/2⌋ : ℤ) : ℚ) := by
  simp [convertFromAED, hsel, hfind, hbase, hbfind, hr, hbr, hrb0, jsMul, jsDiv, jsRound]

/-- Evaluation of `convertToAED` on its converting path. -/
theorem convertToAED_eval
    (st : CurrencyState) (q : ℚ) (fromCurrency : String) (c : Currency) (r : ℚ)
    (hne : fromCurrency ≠ "AED")
    (hfind : st.currencies.find? (fun cc => cc.id = fromCurrency) = some c)
    (hr : parseFloatJS c.rate = some r) (hr0 : r ≠ 0) :
    convertToAED st (some q) fromCurrency = some ((⌊q / r + 1/2⌋ : ℤ) : ℚ) := by
  simp [convertToAED, hne, hfind, hr, hr0, jsDiv, jsRound]

/-- C3: when the selected display currency is not AED and resolves with a
parsed rate `r`: if the base-currency marker is AED,
`convertFromAED(x) = round(x × r)`; if the marker names another currency
whose record resolves with parsed nonzero rate `rb`,
`convertFromAED(x) = round((x × (1 / rb)) × r)`. -/
theorem convertFromAED_cases
    (st : CurrencyState) (x : ℚ) (c : Currency) (r : ℚ)
    (hsel : st.selectedCurrency ≠ "AED")
    (hfind : st.currencies.find? (fun cc => cc.id = st.selectedCurrency) = some c)
    (hr : parseFloatJS c.rate = some r) :
    (st.currentBaseCurrency = "AED" →
      convertFromAED st (some x) = some ((⌊x * r + 1/2⌋ : ℤ) : ℚ))
    ∧ (∀ (b : Currency) (rb : ℚ),
        st.currentBaseCurrency ≠ "AED" →
        st.currencies.find? (fun cc => cc.id = st.currentBaseCurrency) = some b →
        parseFloatJS b.rate = some rb → rb ≠ 0 →
        convertFromAED st (some x) = some ((⌊x * (1 / rb) * r + 1/2⌋ : ℤ) : ℚ)) :=
  ⟨fun hbase => convertFromAED_eval_direct st x c r hsel hfind hr hbase,
   fun b rb hbase hbfind hbr hrb0 =>
     convertFromAED_eval_twostep st x c r b rb hsel hfind hr hbase hbfind hbr hrb0⟩

/-- C3 witness: with the seeded catalog (base AED) converting 100 AED to
USD gives `round(100 × 0.27) = 27`; with a USD-based catalog converting
100 AED to EUR takes the two-step path `round((100 × (1/1)) × 0.92) = 92`. -/
theorem convertFromAED_cases_witness :
    convertFromAED { selectedCurrency := "USD", currencies := seedCurrencies,
                     currentBaseCurrency := "AED" } (some 100) = some 27 ∧
    convertFromAED { selectedCurrency := "EUR", currencies := usdBaseCurrencies,
                     currentBaseCurrency := "USD" } (some 100) = some 92 := by
  constructor
  · have h := (convertFromAED_cases
      { selectedCurrency := "USD", currencies := seedCurrencies, currentBaseCurrency := "AED" }
      100 { id := "USD", name := "US Dollar", symbol := "$", rate := "0.27" } (27/100)
      (by decide) (by decide)
      (by simp +decide [parseFloatJS, parseFloatCore, digitsToNat, digitVal]; norm_num)).1 rfl
    rw [h]
    norm_num [Int.floor_eq_iff]
  · have h := (convertFromAED_cases
      { selectedCurrency := "EUR", currencies := usdBaseCurrencies, currentBaseCurrency := "USD" }
      100 { id := "EUR", name := "Euro", symbol := "€", rate := "0.92" } (92/100)
      (by decide) (by decide)
      (by simp +decide [parseFloatJS, parseFloatCore, digitsToNat, digitVal]; norm_num)).2
      { id := "USD", name := "US Dollar", symbol := "$", rate := "1" } 1
      (by decide) (by decide)
      (by simp +decide [parseFloatJS, parseFloatCore, digitsToNat, digitVal])
      (by norm_num)
    rw [h]
    norm_num [Int.floor_eq_iff]

/-- C4 counterexample: with the seeded catalog (base AED, USD rate 0.27,
which is positive) and amount `x = 2 ≥ 0`, the round trip gives
`convertFromAED(2) = round(0.54) = 1` and then
`convertToAED(1, USD) = round(1/0.27) = 4`, which differs from 2 by 2,
not at most 1 unit. -/
theorem convertRoundTrip_counterexample :
    convertToAED { selectedCurrency := "USD", currencies := seedCurrencies,
                   currentBaseCurrency := "AED" }
        (convertFromAED { selectedCurrency := "USD", currencies := seedCurrencies,
                          currentBaseCurrency := "AED" } (some 2)) "USD" = some 4 ∧
    ¬ |(4 : ℚ) - 2| ≤ 1 := by
  constructor
  · have h1 : convertFromAED { selectedCurrency := "USD", currencies := seedCurrencies,
                               currentBaseCurrency := "AED" } (some 2) = some 1 := by
      simp +decide [convertFromAED, seedCurrencies, parseFloatJS, parseFloatCore,
        digitsToNat, digitVal, jsMul, jsRound]
      norm_num [Int.floor_eq_iff]
    rw [h1]
    simp +decide [convertToAED, seedCurrencies, parseFloatJS, parseFloatCore,
      digitsToNat, digitVal, jsDiv, jsRound]
    norm_num [Int.floor_eq_iff]
  · rw [show ((4 : ℚ) - 2) = 2 by norm_num, abs_of_nonneg (by norm_num : (0:ℚ) ≤ 2)]
    norm_num

/-- C4 amended: for base currency AED, a resolving display currency with
parsed positive rate `r`, and any amount `x ≥ 0`, the round trip
`convertToAED(convertFromAED(x), selected)` is an integer within
`1/2 + 1/(2r)` of `x`; the claimed ±1 tolerance only follows when
`r ≥ 1`, and fails for `r < 1` (see the counterexample at rate 0.27). -/
theorem convertRoundTrip_bound
    (st : CurrencyState) (x : ℚ) (c : Currency) (r : ℚ)
    (hbase : st.currentBaseCurrency = "AED")
    (hsel : st.selectedCurrency ≠ "AED")
    (hfind : st.currencies.find? (fun cc => cc.id = st.selectedCurrency) = some c)
    (hr : parseFloatJS c.rate = some r) (hrpos : 0 < r) (hx : 0 ≤ x) :
    ∃ y : ℤ,
      convertToAED st (convertFromAED st (some x)) st.selectedCurrency = some ((y : ℤ) : ℚ) ∧
      |(y : ℚ) - x| ≤ 1/2 + 1/(2*r) := by
  have hrne : r ≠ 0 := ne_of_gt hrpos
  have e1 := convertFromAED_eval_direct st x c r hsel hfind hr hbase
  have e2 := convertToAED_eval st ((⌊x * r + 1/2⌋ : ℤ) : ℚ) st.selectedCurrency c r
    hsel hfind hr hrne
  refine ⟨⌊((⌊x * r + 1/2⌋ : ℤ) : ℚ) / r + 1/2⌋, by rw [e1, e2], ?_⟩
  have h1 : ((⌊x * r + 1/2⌋ : ℤ) : ℚ) ≤ x * r + 1/2 := Int.floor_le _
  have h2 : x * r - 1/2 < ((⌊x * r + 1/2⌋ : ℤ) : ℚ) := by
    have := Int.sub_one_lt_floor (x * r + 1/2)
    linarith
  have h3 : ((⌊((⌊x * r + 1/2⌋ : ℤ) : ℚ) / r + 1/2⌋ : ℤ) : ℚ) ≤
      ((⌊x * r + 1/2⌋ : ℤ) : ℚ) / r + 1/2 := Int.floor_le _
  have h4 : ((⌊x * r + 1/2⌋ : ℤ) : ℚ) / r - 1/2 <
      ((⌊((⌊x * r + 1/2⌋ : ℤ) : ℚ) / r + 1/2⌋ : ℤ) : ℚ) := by
    have := Int.sub_one_lt_floor (((⌊x * r + 1/2⌋ : ℤ) : ℚ) / r + 1/2)
    linarith
  have h5 : ((⌊x * r + 1/2⌋ : ℤ) : ℚ) / r ≤ x + 1/(2*r) := by
    rw [div_le_iff₀ hrpos]
    have key : (x + 1/(2*r)) * r = x * r + 1/2 := by
      field_simp
      ring
    rw [key]
    exact h1
  have h6 : x - 1/(2*r) < ((⌊x * r + 1/2⌋ : ℤ) : ℚ) / r := by
    rw [lt_div_iff₀ hrpos]
    have key : (x - 1/(2*r)) * r = x * r - 1/2 := by
      field_simp
      ring
    rw [key]
    exact h2
  rw [abs_le]
  constructor
  · linarith
  · linarith

/-- C4 amended witness: seeded catalog, display INR (rate 22.5), amount
100: the round trip returns an integer within `1/2 + 1/45` of 100. -/
theorem convertRoundTrip_bound_witness :
    ∃ y : ℤ,
      convertToAED { selectedCurrency := "INR", currencies := seedCurrencies,
                     currentBaseCurrency := "AED" }
          (convertFromAED { selectedCurrency := "INR", currencies := seedCurrencies,
                            currentBaseCurrency := "AED" } (some 100)) "INR" =
        some ((y : ℤ) : ℚ) ∧
      |(y : ℚ) - 100| ≤ 1/2 + 1/(2*(225/10)) :=
  convertRoundTrip_bound
    { selectedCurrency := "INR", currencies := seedCurrencies, currentBaseCurrency := "AED" }
    100 { id := "INR", name := "Indian Rupee", symbol := "₹", rate := "22.5" } (225/10)
    rfl (by decide) (by decide)
    (by simp +decide [parseFloatJS, parseFloatCore, digitsToNat, digitVal]; norm_num)
    (by norm_num) (by norm_num)

/-- C5: refuted at a concrete post-refresh state. With base USD and rates
per 1 USD (AED 3.67, USD 1, EUR 0.92), converting 100 AED to EUR: the
code's two-step path divides by USD's own stored rate (1), so it returns
`round((100 × 1) × 0.92) = 92` — it treats the AED amount as if it were a
USD amount — while the genuine cross-rate conversion gives
`round(100 × 0.92/3.67) = 25`. The two computations are not equivalent,
contradicting the code's own comment that the step "converts AED to base
currency". -/
theorem convertFromAED_twostep_ne_cross :
    convertFromAED { selectedCurrency := "EUR", currencies := usdBaseCurrencies,
                     currentBaseCurrency := "USD" } (some 100) = some 92 ∧
    directCrossFromAED { selectedCurrency := "EUR", currencies := usdBaseCurrencies,
                         currentBaseCurrency := "USD" } 100 = some 25 ∧
    (92 : ℚ) ≠ 25 := by
  refine ⟨?_, ?_, by norm_num⟩
  · simp +decide [convertFromAED, usdBaseCurrencies, parseFloatJS, parseFloatCore,
      digitsToNat, digitVal, jsMul, jsDiv, jsRound]
    norm_num [Int.floor_eq_iff]
  · simp +decide [directCrossFromAED, usdBaseCurrencies, parseFloatJS, parseFloatCore,
      digitsToNat, digitVal]
    norm_num [Int.floor_eq_iff]

/-- C6: `updateExchangeRates` never surfaces an error — every failure
outcome (thrown fetch, bad HTTP status, malformed body, API error result,
missing `conversion_rates` table) returns exactly the documented fixed
fallback mapping, and a successful fetch returns a mapping over exactly
the eleven supported currencies with the fallback constant substituted
for any individually missing (or zero, JS-falsy) entry. -/
theorem updateExchangeRates_spec :
    (updateExchangeRates .fetchFailed =
        [("AED", 1), ("USD", 272/1000), ("EUR", 25/100), ("GBP", 215/1000),
         ("INR", 225/10), ("PKR", 755/10), ("CAD", 37/100), ("AUD", 41/100),
         ("JPY", 402/10), ("CHF", 24/100), ("CNY", 195/100)] ∧
     updateExchangeRates .badStatus = updateExchangeRates .fetchFailed ∧
     updateExchangeRates .malformedBody = updateExchangeRates .fetchFailed ∧
     updateExchangeRates .apiError = updateExchangeRates .fetchFailed ∧
     updateExchangeRates .noRatesTable = updateExchangeRates .fetchFailed) ∧
    ∀ rates : String → Option ℚ,
      updateExchangeRates (.ok rates) =
        [("AED", jsOrDefault (rates "AED") 1), ("USD", jsOrDefault (rates "USD") (272/1000)),
         ("EUR", jsOrDefault (rates "EUR") (25/100)), ("GBP", jsOrDefault (rates "GBP") (215/1000)),
         ("INR", jsOrDefault (rates "INR") (225/10)), ("PKR", jsOrDefault (rates "PKR") (755/10)),
         ("CAD", jsOrDefault (rates "CAD") (37/100)), ("AUD", jsOrDefault (rates "AUD") (41/100)),
         ("JPY", jsOrDefault (rates "JPY") (402/10)), ("CHF", jsOrDefault (rates "CHF") (24/100)),
         ("CNY", jsOrDefault (rates "CNY") (195/100))] :=
  ⟨⟨rfl, rfl, rfl, rfl, rfl⟩, fun _ => rfl⟩

/-- C8 counterexample: refreshing the seeded store to base USD when the
currencies upsert succeeds but the marker upsert fails leaves the store
mismatched — the currency records carry the new rates and the `USD` base
tag while the marker still reads `AED` — so the rate table and the marker
do not move together. -/
theorem updateCurrencyRates_counterexample :
    updateCurrencyRates { currencies := seedStoredCurrencies, baseCurrencyMarker := "AED" }
        fallbackRates "USD" { currenciesWriteOk := true, markerWriteOk := false } =
      ({ currencies := updatedCurrencyList seedStoredCurrencies fallbackRates "USD",
         baseCurrencyMarker := "AED" }, false) ∧
    updatedCurrencyList seedStoredCurrencies fallbackRates "USD" ≠ seedStoredCurrencies ∧
    (updatedCurrencyList seedStoredCurrencies fallbackRates "USD").map
        StoredCurrency.baseCurrency = List.replicate 5 (some "USD") := by
  refine ⟨rfl, ?_, ?_⟩
  · intro h
    have := congrArg (fun l => l.map StoredCurrency.baseCurrency) h
    simp [updatedCurrencyList, seedStoredCurrencies] at this
  · simp +decide [updatedCurrencyList, seedStoredCurrencies, List.replicate]

/-- C8 amended: `updateCurrencyRates` performs two independent upserts;
when both succeed the rate table and the marker land together and the
operation succeeds, when both fail the store is unchanged, and when
exactly one write fails the other still lands — leaving the rate table
and the marker mismatched — while the operation surfaces an error
(throws) whenever either write fails. -/
theorem updateCurrencyRates_cases
    (st : KVStore) (rates : List (String × ℚ)) (base : String) (oc : UpsertOutcome) :
    (oc.currenciesWriteOk = true → oc.markerWriteOk = true →
      updateCurrencyRates st rates base oc =
        ({ currencies := updatedCurrencyList st.currencies rates base,
           baseCurrencyMarker := base }, true))
    ∧ (oc.currenciesWriteOk = false → oc.markerWriteOk = false →
        updateCurrencyRates st rates base oc = (st, false))
    ∧ (oc.currenciesWriteOk = true → oc.markerWriteOk = false →
        updateCurrencyRates st rates base oc =
          ({ currencies := updatedCurrencyList st.currencies rates base,
             baseCurrencyMarker := st.baseCurrencyMarker }, false))
    ∧ (oc.currenciesWriteOk = false → oc.markerWriteOk = true →
        updateCurrencyRates st rates base oc =
          ({ currencies := st.currencies, baseCurrencyMarker := base }, false)) := by
  rcases oc with ⟨co, mo⟩
  cases co <;> cases mo <;> simp [updateCurrencyRates]

/-- C8 amended witness: refreshing the seeded store to base USD with both
upserts succeeding lands the mapped currency list and the `USD` marker
together and reports success. -/
theorem updateCurrencyRates_cases_witness :
    updateCurrencyRates { currencies := seedStoredCurrencies, baseCurrencyMarker := "AED" }
        fallbackRates "USD" { currenciesWriteOk := true, markerWriteOk := true } =
      ({ currencies := updatedCurrencyList seedStoredCurrencies fallbackRates "USD",
         baseCurrencyMarker := "USD" }, true) :=
  (updateCurrencyRates_cases
      { currencies := seedStoredCurrencies, baseCurrencyMarker := "AED" }
      fallbackRates "USD" { currenciesWriteOk := true, markerWriteOk := true }).1 rfl rfl

/-- C10: the refresh write only rewrites the rate and base-currency tag
of records already in the catalog — the result has exactly the catalog's
ids in order (so a mapped id with no catalog record creates nothing, and
any id outside the catalog stays outside), and positionally each record
keeps its id, name and symbol, gets the new base tag, and takes the
mapped rate unless that entry is absent or zero, in which case the
previous rate is kept; whenever the currencies upsert succeeds, the store
holds exactly this mapped list. -/
theorem updatedCurrencyList_frame
    (currencies : List StoredCurrency) (rates : List (String × ℚ)) (base : String) :
    ((updatedCurrencyList currencies rates base).map StoredCurrency.id =
       currencies.map StoredCurrency.id)
    ∧ (∀ cid : String, cid ∉ currencies.map StoredCurrency.id →
        cid ∉ (updatedCurrencyList currencies rates base).map StoredCurrency.id)
    ∧ (∀ (i : ℕ) (h : i < (updatedCurrencyList currencies rates base).length),
        ∃ h2 : i < currencies.length,
          ((updatedCurrencyList currencies rates base).get ⟨i, h⟩).id =
              (currencies.get ⟨i, h2⟩).id ∧
          ((updatedCurrencyList currencies rates base).get ⟨i, h⟩).name =
              (currencies.get ⟨i, h2⟩).name ∧
          ((updatedCurrencyList currencies rates base).get ⟨i, h⟩).symbol =
              (currencies.get ⟨i, h2⟩).symbol ∧
          ((updatedCurrencyList currencies rates base).get ⟨i, h⟩).baseCurrency = some base ∧
          ((updatedCurrencyList currencies rates base).get ⟨i, h⟩).rate =
            (match ratesLookup rates (currencies.get ⟨i, h2⟩).id with
             | some v => if v = 0 then (currencies.get ⟨i, h2⟩).rate else RateVal.num v
             | none => (currencies.get ⟨i, h2⟩).rate))
    ∧ (∀ (st : KVStore) (oc : UpsertOutcome), oc.currenciesWriteOk = true →
        ((updateCurrencyRates st rates base oc).1).currencies =
          updatedCurrencyList st.currencies rates base) := by
  refine ⟨?_, ?_, ?_, ?_⟩
  · simp [updatedCurrencyList, List.map_map]
  · intro cid hnot
    have hids : (updatedCurrencyList currencies rates base).map StoredCurrency.id =
        currencies.map StoredCurrency.id := by
      simp [updatedCurrencyList, List.map_map]
    rw [hids]
    exact hnot
  · intro i h
    have hlen : (updatedCurrencyList currencies rates base).length = currencies.length := by
      simp [updatedCurrencyList]
    refine ⟨hlen ▸ h, ?_, ?_, ?_, ?_, ?_⟩ <;>
      simp [updatedCurrencyList, List.get_map]
  · intro st oc hok
    rcases oc with ⟨co, mo⟩
    cases mo <;> simp_all [updateCurrencyRates]

/-- C10 witness: refreshing the seeded five-currency store with the
fallback table and base USD — `PKR` is in the mapping but not the
catalog and stays out of the result, and the record at index 1 (`USD`)
keeps its id, name and symbol, gets the `USD` tag, and takes the mapped
rate; with the currencies upsert succeeding the store holds the mapped
list. -/
theorem updatedCurrencyList_frame_witness :
    ("PKR" ∉ (updatedCurrencyList seedStoredCurrencies fallbackRates "USD").map
        StoredCurrency.id) ∧
    (∃ h2 : 1 < seedStoredCurrencies.length,
      ((updatedCurrencyList seedStoredCurrencies fallbackRates "USD").get
          ⟨1, by simp [updatedCurrencyList, seedStoredCurrencies]⟩).id =
          (seedStoredCurrencies.get ⟨1, h2⟩).id ∧
      ((updatedCurrencyList seedStoredCurrencies fallbackRates "USD").get
          ⟨1, by simp [updatedCurrencyList, seedStoredCurrencies]⟩).name =
          (seedStoredCurrencies.get ⟨1, h2⟩).name ∧
      ((updatedCurrencyList seedStoredCurrencies fallbackRates "USD").get
          ⟨1, by simp [updatedCurrencyList, seedStoredCurrencies]⟩).symbol =
          (seedStoredCurrencies.get ⟨1, h2⟩).symbol ∧
      ((updatedCurrencyList seedStoredCurrencies fallbackRates "USD").get
          ⟨1, by simp [updatedCurrencyList, seedStoredCurrencies]⟩).baseCurrency =
          some "USD" ∧
      ((updatedCurrencyList seedStoredCurrencies fallbackRates "USD").get
          ⟨1, by simp [updatedCurrencyList, seedStoredCurrencies]⟩).rate =
        (match ratesLookup fallbackRates (seedStoredCurrencies.get ⟨1, h2⟩).id with
         | some v => if v = 0 then (seedStoredCurrencies.get ⟨1, h2⟩).rate else RateVal.num v
         | none => (seedStoredCurrencies.get ⟨1, h2⟩).rate)) ∧
    ((updateCurrencyRates { currencies := seedStoredCurrencies, baseCurrencyMarker := "AED" }
        fallbackRates "USD" { currenciesWriteOk := true, markerWriteOk := true }).1).currencies =
      updatedCurrencyList seedStoredCurrencies fallbackRates "USD" :=
  ⟨(updatedCurrencyList_frame seedStoredCurrencies fallbackRates "USD").2.1 "PKR" (by decide),
   (updatedCurrencyList_frame seedStoredCurrencies fallbackRates "USD").2.2.1 1
      (by simp [updatedCurrencyList, seedStoredCurrencies]),
   (updatedCurrencyList_frame seedStoredCurrencies fallbackRates "USD").2.2.2
      { currencies := seedStoredCurrencies, baseCurrencyMarker := "AED" }
      { currenciesWriteOk := true, markerWriteOk := true } rfl⟩

/-- C9: quote-boundary operations reject rather than default missing
required input — quote creation answers the 400 rejection (creating no
record) when any of `type`, `configuration`, `finalRate` or `currency` is
absent or not of its schema type, and on valid input returns the
persisted record carrying the freshly generated id and creation
timestamp; sending a quote email is rejected when `recipientEmail`,
`senderName` or `quoteData` is missing. -/
theorem quoteBoundary_validation :
    (∀ (b : QuoteReqBody) (newId now : String) (writeOk : Bool),
       (b.type = none ∨ b.configuration = none ∨ b.finalRate = none ∨ b.currency = none) →
       quotesRoute b newId now writeOk = .invalid)
    ∧ (∀ (t : String) (cfg : QuoteConfig) (fr : ℚ) (cur newId now : String),
       quotesRoute { type := some t, configuration := some cfg, finalRate := some fr,
                     currency := some cur } newId now true =
         QuoteRouteResult.created
           { id := newId, type := t, configuration := cfg, finalRate := fr,
             currency := cur, createdAt := now })
    ∧ (∀ (re sn : Option String) (qd : Option InsertQuote) (emailOk : Bool),
       (jsFalsyStr re = true ∨ jsFalsyStr sn = true ∨ qd = none) →
       sendQuoteRoute re sn qd emailOk = .missingFields) := by
  refine ⟨?_, ?_, ?_⟩
  · intro b newId now writeOk h
    rcases b with ⟨ty, cfg, fr, cur⟩
    rcases h with h | h | h | h
    · simp only at h
      subst h
      simp [quotesRoute, insertQuoteParse]
    · simp only at h
      subst h
      rcases ty with _ | t <;> simp [quotesRoute, insertQuoteParse]
    · simp only at h
      subst h
      rcases ty with _ | t <;> rcases cfg with _ | c <;>
        simp [quotesRoute, insertQuoteParse]
    · simp only at h
      subst h
      rcases ty with _ | t <;> rcases cfg with _ | c <;> rcases fr with _ | f <;>
        simp [quotesRoute, insertQuoteParse]
  · intro t cfg fr cur newId now
    simp [quotesRoute, insertQuoteParse]
  · intro re sn qd emailOk h
    rcases h with h | h | h
    · simp [sendQuoteRoute, h]
    · simp [sendQuoteRoute, h]
    · subst h
      simp [sendQuoteRoute]

/-- C9 witness: a valid `custom` body is persisted with the fresh id and
timestamp; a body with no `type` is rejected; a send request whose
recipient email is the empty string is rejected. -/
theorem quoteBoundary_validation_witness :
    quotesRoute { type := some "custom", configuration := some [("region", "Middle East")],
                  finalRate := some 193, currency := some "AED" } "quote-1" "2025-01-01" true =
      QuoteRouteResult.created
        { id := "quote-1", type := "custom", configuration := [("region", "Middle East")],
          finalRate := 193, currency := "AED", createdAt := "2025-01-01" } ∧
    quotesRoute { type := none, configuration := some [("region", "Middle East")],
                  finalRate := some 193, currency := some "AED" } "quote-2" "2025-01-01" true =
      QuoteRouteResult.invalid ∧
    sendQuoteRoute (some "") (some "A sender") (some ⟨"custom", [], 193, "AED"⟩) true =
      SendQuoteResult.missingFields :=
  ⟨quoteBoundary_validation.2.1 "custom" [("region", "Middle East")] 193 "AED"
      "quote-1" "2025-01-01",
   quoteBoundary_validation.1
      { type := none, configuration := some [("region", "Middle East")],
        finalRate := some 193, currency := some "AED" } "quote-2" "2025-01-01" true
      (Or.inl rfl),
   quoteBoundary_validation.2.2 (some "") (some "A sender")
      (some ⟨"custom", [], 193, "AED"⟩) true (Or.inl (by decide))⟩

end RateCard
